import Mathlib

/-!
Verification of the sandboxed code-execution service (`run_code` and
`_set_limits` in `main.py`) against its specification.

The embedding models `run_code` as a pure function from the request
(language tag, source text, timeout) and an environment (platform
capability, executable resolver, child-process behaviour) to the returned
result dictionary together with the trace of filesystem/process effects
the call performs.
-/

namespace AiChat

/-- Resource limits installed by `_set_limits` via `setrlimit`. -/
structure RLimits where
  cpu_soft : Nat
  cpu_hard : Nat
  address_space : Nat
  fsize : Nat
deriving DecidableEq, Repr

/-- Behaviour of the child process for one invocation of `subprocess.run`:
it either runs to completion with an exit status and full captured output,
hits the wall-clock timeout with optional partial output (the `output` and
`stderr` attributes of `TimeoutExpired`, `none` modelling Python `None`),
or the call raises some other exception. -/
inductive ExecOutcome where
  | completed (returncode : Int) (stdout : String) (stderr : String)
  | timedOut (output : Option String) (stderr : Option String)
  | raised (msg : String)
deriving DecidableEq, Repr

/-- Host environment of one `run_code` invocation: whether the `resource`
module imported (POSIX), the `shutil.which` resolver, the child behaviour,
and the unique directory name `tempfile.mkdtemp` allocates. -/
structure Env where
  posix : Bool
  which : String → Option String
  exec : ExecOutcome
  tmpName : String

/-- The dictionary `run_code` returns. Python dicts on the error paths omit
keys, so each field other than `success` is an `Option` recording whether
the key is present; `exit_code` is doubly optional because the timeout
result carries the key with value `None`. -/
structure RunResult where
  success : Bool
  stdout : Option String
  stderr : Option String
  exit_code : Option (Option Int)
  timed_out : Option Bool
  error : Option String
deriving DecidableEq, Repr

/-- Filesystem and process effects performed by `run_code`, in order. -/
inductive Event where
  | mkdtemp (dir : String)
  | writeFile (path : String) (content : String)
  | chmod (path : String) (mode : Nat)
  | spawn (cmd : List String) (cwd : String) (timeout : Nat) (limits : Option RLimits)
  | rmtree (dir : String)
deriving DecidableEq, Repr

/-- Model of `_set_limits`: in the child before exec it installs, on POSIX only,
CPU soft 6s / hard 8s, address space 256 MiB, file size 10 MiB
(`main.py` lines 95-105); on non-POSIX it returns without doing anything,
modelled as `none`. -/
def _set_limits (posix : Bool) : Option RLimits :=
  if posix then
    some { cpu_soft := 6, cpu_hard := 8,
           address_space := 256 * 1024 * 1024, fsize := 10 * 1024 * 1024 }
  else none

/-- Python `str.lower()`, character by character. -/
def pyLower (s : String) : String :=
  String.mk (s.data.map Char.toLower)

/-- Line 112 of `main.py`, `language = (language or "python").lower()`:
`None` and the empty string are falsy in Python and fall back to
`"python"`; otherwise the tag is lowercased. -/
def normalizeLang (language : Option String) : String :=
  pyLower (match language with
           | none => "python"
           | some s => if s = "" then "python" else s)

/-- Python slicing `s[:20000]` used at result construction
(`main.py` lines 162-163). -/
def truncate20000 (s : String) : String :=
  String.mk (s.data.take 20000)

/-- Model of `shutil.which a or shutil.which b` (`main.py` lines 122 and 141). -/
def whichOr (w : String → Option String) (a b : String) : Option String :=
  match w a with
  | some p => some p
  | none => w b

/-- An error-path dictionary `{"success": False, "error": msg}`
(`main.py` lines 124, 133, 143, 147, 171): every other key is absent. -/
def errorResult (msg : String) : RunResult :=
  { success := false, stdout := none, stderr := none,
    exit_code := none, timed_out := none, error := some msg }

/-- Result of the `subprocess.run` call and its two exception handlers
(`main.py` lines 151-171): on completion, output truncated to 20000 and
`success = (returncode == 0)`; on `TimeoutExpired`,
`stdout = e.output or ""` and `stderr = e.stderr or "TIMEOUT"` with no
truncation; on any other exception, an error dictionary. -/
def subprocessResult (outcome : ExecOutcome) : RunResult :=
  match outcome with
  | .completed rc out err =>
      { success := rc == 0,
        stdout := some (truncate20000 out),
        stderr := some (truncate20000 err),
        exit_code := some (some rc),
        timed_out := some false,
        error := none }
  | .timedOut pout perr =>
      { success := false,
        stdout := some (pout.getD ""),
        stderr := some (if perr.getD "" = "" then "TIMEOUT" else perr.getD ""),
        exit_code := some none,
        timed_out := some true,
        error := none }
  | .raised msg => errorResult ("Execution error: " ++ msg)

/-- Body of the `try` block of `run_code` (`main.py` lines 117-171):
dispatch on the normalized language, write the source file, resolve the
interpreter, spawn with limits, and build the result. Returns the result
together with the effects performed inside the block. -/
def run_body (lang tmpdir code : String) (timeout_seconds : Nat) (env : Env) :
    RunResult × List Event :=
  if lang = "py" ∨ lang = "python" then
    let wev := Event.writeFile (tmpdir ++ "/main.py") code
    match whichOr env.which "python3" "python" with
    | none => (errorResult "python interpreter not found on server.", [wev])
    | some pyExec =>
        let sp := Event.spawn [pyExec, "-u", "main.py"] tmpdir timeout_seconds
          (if env.posix then _set_limits env.posix else none)
        (subprocessResult env.exec, [wev, sp])
  else if lang = "js" ∨ lang = "node" ∨ lang = "javascript" then
    let wev := Event.writeFile (tmpdir ++ "/main.js") code
    match env.which "node" with
    | none => (errorResult "node not found on server.", [wev])
    | some nodeExec =>
        let sp := Event.spawn [nodeExec, "main.js"] tmpdir timeout_seconds
          (if env.posix then _set_limits env.posix else none)
        (subprocessResult env.exec, [wev, sp])
  else if lang = "sh" ∨ lang = "bash" then
    let wev := Event.writeFile (tmpdir ++ "/run.sh") code
    let cev := Event.chmod (tmpdir ++ "/run.sh") 448
    match whichOr env.which "bash" "sh" with
    | none => (errorResult "sh/bash not found on server.", [wev, cev])
    | some bashExec =>
        let sp := Event.spawn [bashExec, "run.sh"] tmpdir timeout_seconds
          (if env.posix then _set_limits env.posix else none)
        (subprocessResult env.exec, [wev, cev, sp])
  else
    (errorResult ("Unsupported language: " ++ lang), [])

/-- Model of `run_code` (`main.py` lines 107-177): normalize the language, create
the workspace with `tempfile.mkdtemp`, run the dispatch/spawn body, and in
the `finally` clause remove the workspace with `shutil.rmtree`. -/
def run_code (language : Option String) (code : String) (timeout_seconds : Nat)
    (env : Env) : RunResult × List Event :=
  ((run_body (normalizeLang language) env.tmpName code timeout_seconds env).1,
   Event.mkdtemp env.tmpName
     :: (run_body (normalizeLang language) env.tmpName code timeout_seconds env).2
     ++ [Event.rmtree env.tmpName])

/-- One step of replaying a trace against the set of live directories:
`mkdtemp` creates one, `rmtree` removes it, everything else is neutral. -/
def dirStep (acc : List String) (e : Event) : List String :=
  match e with
  | Event.mkdtemp d => acc ++ [d]
  | Event.rmtree d => acc.filter (fun x => x != d)
  | _ => acc

/-- Directories still existing after a trace of effects. -/
def dirsAfter (events : List Event) : List String :=
  events.foldl dirStep []

/-- Whether an event creates or removes a directory. -/
def touchesDirs : Event → Bool
  | Event.mkdtemp _ => true
  | Event.rmtree _ => true
  | _ => false

/-- No `spawn` effect occurs in the trace: no child process was started. -/
def noSpawn (events : List Event) : Prop :=
  ∀ c cw ts l, Event.spawn c cw ts l ∉ events

/-- The seven language tags `run_code` recognizes after normalization
(the three dispatch branches of `main.py` lines 118, 127 and 136). -/
def recognizedTags : List String :=
  ["py", "python", "js", "node", "javascript", "sh", "bash"]

/-- A result is a normal completion: the `exit_code` key holds an integer,
`timed_out` is `false` and no `error` key is present. -/
def NormalOutcome (r : RunResult) : Prop :=
  (∃ k, r.exit_code = some (some k)) ∧ r.timed_out = some false ∧ r.error = none

/-- A result is a timeout: `timed_out` is `true`, the `exit_code` key is
present and holds `None`, and no `error` key is present. -/
def TimeoutOutcome (r : RunResult) : Prop :=
  r.timed_out = some true ∧ r.exit_code = some none ∧ r.error = none

/-- A result is an error: the `error` key is populated and the `exit_code`
key is absent. -/
def ErrorOutcome (r : RunResult) : Prop :=
  (∃ m, r.error = some m) ∧ r.exit_code = none

/-- Exactly one of the three terminal outcomes holds for a result. -/
def ExactlyOneOutcome (r : RunResult) : Prop :=
  (NormalOutcome r ∧ ¬ TimeoutOutcome r ∧ ¬ ErrorOutcome r)
  ∨ (¬ NormalOutcome r ∧ TimeoutOutcome r ∧ ¬ ErrorOutcome r)
  ∨ (¬ NormalOutcome r ∧ ¬ TimeoutOutcome r ∧ ErrorOutcome r)

/-- A POSIX host with `python3` on the search path whose child prints
`2` and exits 0. -/
def envPy : Env :=
  { posix := true,
    which := fun s => if s = "python3" then some "/usr/bin/python3" else none,
    exec := ExecOutcome.completed 0 "2\n" "",
    tmpName := "ai_run_w" }

/-- A POSIX host with an empty search path: no interpreter resolves. -/
def envNoInterp : Env :=
  { posix := true,
    which := fun _ => none,
    exec := ExecOutcome.completed 0 "" "",
    tmpName := "ai_run_n" }

/-- A non-POSIX host whose child hits the wall-clock timeout with partial
output on both streams. -/
def envTimeout : Env :=
  { posix := false,
    which := fun s => if s = "python3" then some "/usr/bin/python3" else none,
    exec := ExecOutcome.timedOut (some "partial out") (some "partial err"),
    tmpName := "ai_run_t" }

/-- A host whose child hits the wall-clock timeout with no captured
output at all (`TimeoutExpired` attributes are `None`). -/
def envTimeoutEmpty : Env :=
  { posix := true,
    which := fun s => if s = "python3" then some "/usr/bin/python3" else none,
    exec := ExecOutcome.timedOut none none,
    tmpName := "ai_run_e" }

/-- A 20001-character string, one character longer than the truncation
bound. -/
def longOut : String :=
  String.mk (List.replicate 20001 'a')

/-- A host whose child hits the wall-clock timeout having already produced
20001 characters of partial standard output. -/
def envTimeoutLong : Env :=
  { posix := true,
    which := fun s => if s = "python3" then some "/usr/bin/python3" else none,
    exec := ExecOutcome.timedOut (some longOut) none,
    tmpName := "ai_run_l" }

/-- A host whose child runs to completion having produced 20001 characters
of standard output. -/
def envCompletedLong : Env :=
  { posix := true,
    which := fun s => if s = "python3" then some "/usr/bin/python3" else none,
    exec := ExecOutcome.completed 0 longOut "",
    tmpName := "ai_run_c" }

/-! ## Helper lemmas -/

theorem foldl_dirStep_neutral (evs : List Event) :
    (∀ e ∈ evs, touchesDirs e = false) → ∀ acc, evs.foldl dirStep acc = acc := by
  induction evs with
  | nil => intro _ acc; rfl
  | cons e rest ih =>
      intro h acc
      have he : touchesDirs e = false := h e (by simp)
      have hstep : dirStep acc e = acc := by
        cases e <;> simp [touchesDirs] at he ⊢ <;> simp [dirStep]
      rw [List.foldl_cons, hstep]
      exact ih (fun x hx => h x (by simp [hx])) acc

theorem dirsAfter_wrap (d : String) (mid : List Event)
    (h : ∀ e ∈ mid, touchesDirs e = false) :
    dirsAfter (Event.mkdtemp d :: mid ++ [Event.rmtree d]) = [] := by
  unfold dirsAfter
  have h0 : List.foldl dirStep [] (Event.mkdtemp d :: mid ++ [Event.rmtree d])
      = List.foldl dirStep [d] (mid ++ [Event.rmtree d]) := rfl
  rw [h0, List.foldl_append, foldl_dirStep_neutral mid h [d]]
  simp [dirStep]

theorem run_body_no_touch (lang tmpdir code : String) (t : Nat) (env : Env) :
    ∀ e ∈ (run_body lang tmpdir code t env).2, touchesDirs e = false := by
  unfold run_body
  split
  · cases hw : whichOr env.which "python3" "python" <;>
      · intro e he; simp at he
        first
        | (subst he; rfl)
        | (rcases he with he | he <;> subst he <;> rfl)
  · split
    · cases hw : env.which "node" <;>
        · intro e he; simp at he
          first
          | (subst he; rfl)
          | (rcases he with he | he <;> subst he <;> rfl)
    · split
      · cases hw : whichOr env.which "bash" "sh" <;>
          · intro e he; simp at he
            first
            | (rcases he with he | he <;> subst he <;> rfl)
            | (rcases he with he | he | he <;> subst he <;> rfl)
      · intro e he; simp at he

theorem run_code_fst (language : Option String) (code : String) (t : Nat) (env : Env) :
    (run_code language code t env).1
      = (run_body (normalizeLang language) env.tmpName code t env).1 := rfl

theorem run_code_spawn_mem (language : Option String) (code : String) (t : Nat)
    (env : Env) (c : List String) (cw : String) (ts : Nat) (l : Option RLimits)
    (h : Event.spawn c cw ts l ∈ (run_code language code t env).2) :
    Event.spawn c cw ts l
      ∈ (run_body (normalizeLang language) env.tmpName code t env).2 := by
  unfold run_code at h
  simp at h
  exact h

theorem run_body_spawn_mem (lang tmpdir code : String) (t : Nat) (env : Env)
    (c : List String) (cw : String) (ts : Nat) (l : Option RLimits)
    (h : Event.spawn c cw ts l ∈ (run_body lang tmpdir code t env).2) :
    (run_body lang tmpdir code t env).1 = subprocessResult env.exec
    ∧ cw = tmpdir ∧ ts = t
    ∧ l = (if env.posix then _set_limits env.posix else none) := by
  unfold run_body at h ⊢
  by_cases h1 : lang = "py" ∨ lang = "python"
  · rw [if_pos h1] at h ⊢
    cases hw : whichOr env.which "python3" "python" <;> rw [hw] at h <;> simp at h
    obtain ⟨_, hcw, hts, hl⟩ := h
    exact ⟨rfl, hcw, hts, hl⟩
  · rw [if_neg h1] at h ⊢
    by_cases h2 : lang = "js" ∨ lang = "node" ∨ lang = "javascript"
    · rw [if_pos h2] at h ⊢
      cases hw : env.which "node" <;> rw [hw] at h <;> simp at h
      obtain ⟨_, hcw, hts, hl⟩ := h
      exact ⟨rfl, hcw, hts, hl⟩
    · rw [if_neg h2] at h ⊢
      by_cases h3 : lang = "sh" ∨ lang = "bash"
      · rw [if_pos h3] at h ⊢
        cases hw : whichOr env.which "bash" "sh" <;> rw [hw] at h <;> simp at h
        obtain ⟨_, hcw, hts, hl⟩ := h
        exact ⟨rfl, hcw, hts, hl⟩
      · rw [if_neg h3] at h
        simp at h

theorem run_body_result_cases (lang tmpdir code : String) (t : Nat) (env : Env) :
    (∃ m, (run_body lang tmpdir code t env).1 = errorResult m)
    ∨ (run_body lang tmpdir code t env).1 = subprocessResult env.exec := by
  unfold run_body
  by_cases h1 : lang = "py" ∨ lang = "python"
  · rw [if_pos h1]
    cases hw : whichOr env.which "python3" "python"
    · exact Or.inl ⟨_, rfl⟩
    · exact Or.inr rfl
  · rw [if_neg h1]
    by_cases h2 : lang = "js" ∨ lang = "node" ∨ lang = "javascript"
    · rw [if_pos h2]
      cases hw : env.which "node"
      · exact Or.inl ⟨_, rfl⟩
      · exact Or.inr rfl
    · rw [if_neg h2]
      by_cases h3 : lang = "sh" ∨ lang = "bash"
      · rw [if_pos h3]
        cases hw : whichOr env.which "bash" "sh"
        · exact Or.inl ⟨_, rfl⟩
        · exact Or.inr rfl
      · rw [if_neg h3]
        exact Or.inl ⟨_, rfl⟩

theorem truncate20000_length (s : String) : (truncate20000 s).length ≤ 20000 := by
  have h0 : (truncate20000 s).length = (s.data.take 20000).length := rfl
  rw [h0, List.length_take]
  exact min_le_left _ _

theorem truncate20000_length_eq (s : String) :
    (truncate20000 s).length = min 20000 s.length := by
  have h0 : (truncate20000 s).length = (s.data.take 20000).length := rfl
  rw [h0, List.length_take]
  rfl

theorem run_body_unsupported (lang tmpdir code : String) (t : Nat) (env : Env)
    (h1 : ¬(lang = "py" ∨ lang = "python"))
    (h2 : ¬(lang = "js" ∨ lang = "node" ∨ lang = "javascript"))
    (h3 : ¬(lang = "sh" ∨ lang = "bash")) :
    run_body lang tmpdir code t env
      = (errorResult ("Unsupported language: " ++ lang), []) := by
  unfold run_body
  rw [if_neg h1, if_neg h2, if_neg h3]

theorem run_body_py_nointerp (lang tmpdir code : String) (t : Nat) (env : Env)
    (h1 : lang = "py" ∨ lang = "python")
    (hw : whichOr env.which "python3" "python" = none) :
    run_body lang tmpdir code t env
      = (errorResult "python interpreter not found on server.",
         [Event.writeFile (tmpdir ++ "/main.py") code]) := by
  unfold run_body
  rw [if_pos h1, hw]

theorem run_body_js_nointerp (lang tmpdir code : String) (t : Nat) (env : Env)
    (h1 : ¬(lang = "py" ∨ lang = "python"))
    (h2 : lang = "js" ∨ lang = "node" ∨ lang = "javascript")
    (hw : env.which "node" = none) :
    run_body lang tmpdir code t env
      = (errorResult "node not found on server.",
         [Event.writeFile (tmpdir ++ "/main.js") code]) := by
  unfold run_body
  rw [if_neg h1, if_pos h2, hw]

theorem run_body_sh_nointerp (lang tmpdir code : String) (t : Nat) (env : Env)
    (h1 : ¬(lang = "py" ∨ lang = "python"))
    (h2 : ¬(lang = "js" ∨ lang = "node" ∨ lang = "javascript"))
    (h3 : lang = "sh" ∨ lang = "bash")
    (hw : whichOr env.which "bash" "sh" = none) :
    run_body lang tmpdir code t env
      = (errorResult "sh/bash not found on server.",
         [Event.writeFile (tmpdir ++ "/run.sh") code,
          Event.chmod (tmpdir ++ "/run.sh") 448]) := by
  unfold run_body
  rw [if_neg h1, if_neg h2, if_pos h3, hw]

/-! ## Claim theorems -/

/-- C1: every invocation of `run_code` removes the temporary workspace
directory it created before returning, on every code path: the set of
directories still live after replaying the invocation's effect trace is
empty. -/
theorem run_code_removes_workspace (language : Option String) (code : String)
    (t : Nat) (env : Env) :
    dirsAfter (run_code language code t env).2 = [] := by
  unfold run_code
  exact dirsAfter_wrap env.tmpName _ (run_body_no_touch _ _ _ _ _)

/-- C4: every result `run_code` returns satisfies exactly one of the three
terminal outcomes: normal completion with an integer exit code, timeout
with a null exit code, or an error result with no exit code key. -/
theorem run_code_exactly_one_outcome (language : Option String) (code : String)
    (t : Nat) (env : Env) :
    ExactlyOneOutcome (run_code language code t env).1 := by
  rw [run_code_fst]
  rcases run_body_result_cases (normalizeLang language) env.tmpName code t env with
    ⟨m, hm⟩ | hs
  · rw [hm]
    exact Or.inr (Or.inr (by
      simp [NormalOutcome, TimeoutOutcome, ErrorOutcome, errorResult, ExactlyOneOutcome]))
  · rw [hs]
    cases env.exec with
    | completed rc out err =>
        exact Or.inl (by
          simp [NormalOutcome, TimeoutOutcome, ErrorOutcome, subprocessResult])
    | timedOut pout perr =>
        exact Or.inr (Or.inl (by
          simp [NormalOutcome, TimeoutOutcome, ErrorOutcome, subprocessResult]))
    | raised msg =>
        exact Or.inr (Or.inr (by
          simp [NormalOutcome, TimeoutOutcome, ErrorOutcome, subprocessResult,
            errorResult]))

/-- C2 (counterexample): the claim fails as stated. For the unrecognized
tag "ruby" the call does return the validation error, but a workspace
directory IS created first (`mkdtemp` precedes the language check); and
the empty tag is not rejected at all: it falls back to the python default
and runs to completion. -/
theorem run_code_unsupported_cex :
    (run_code (some "ruby") "x" 10 envPy).1.error
        = some "Unsupported language: ruby"
    ∧ Event.mkdtemp "ai_run_w" ∈ (run_code (some "ruby") "x" 10 envPy).2
    ∧ (run_code (some "") "print(1+1)" 10 envPy).1.error = none
    ∧ (run_code (some "") "print(1+1)" 10 envPy).1.exit_code = some (some 0) := by
  decide

/-- C2 (amended): for every language tag whose normalization (`None` and
the empty string fall back to "python", then lowercasing) is not one of
the recognized aliases, `run_code` returns the unsupported-language
validation error and spawns no child process; a temporary workspace
directory is created before the language check, but it is removed again
before `run_code` returns. -/
theorem run_code_unsupported_language_error (language : Option String)
    (code : String) (t : Nat) (env : Env)
    (h : normalizeLang language ∉ recognizedTags) :
    (run_code language code t env).1.error
        = some ("Unsupported language: " ++ normalizeLang language)
    ∧ noSpawn (run_code language code t env).2
    ∧ dirsAfter (run_code language code t env).2 = [] := by
  simp [recognizedTags, not_or] at h
  obtain ⟨h1, h2, h3, h4, h5, h6, h7⟩ := h
  have hb := run_body_unsupported (normalizeLang language) env.tmpName code t env
    (by tauto) (by tauto) (by tauto)
  refine ⟨?_, ?_, ?_⟩
  · rw [run_code_fst, hb]
    rfl
  · intro c cw ts l hmem
    unfold run_code at hmem
    rw [hb] at hmem
    simp at hmem
  · unfold run_code
    exact dirsAfter_wrap _ _ (run_body_no_touch _ _ _ _ _)

/-- C2 witness: the amended theorem applied to the tag "ruby" on a host
with an empty search path. -/
theorem run_code_unsupported_language_error_witness :
    (run_code (some "ruby") "x" 10 envNoInterp).1.error
        = some ("Unsupported language: " ++ normalizeLang (some "ruby"))
    ∧ noSpawn (run_code (some "ruby") "x" 10 envNoInterp).2
    ∧ dirsAfter (run_code (some "ruby") "x" 10 envNoInterp).2 = [] :=
  run_code_unsupported_language_error (some "ruby") "x" 10 envNoInterp (by decide)

/-- C3 (counterexample): the claim fails on the timed-out result. A child
that hit the timeout having produced 20001 characters of partial standard
output gets those 20001 characters back untruncated: the timeout handler
returns `e.output` without applying the 20000-character slice. -/
theorem run_code_timeout_untruncated_cex :
    (run_code (some "python") "while True: print(0)" 10 envTimeoutLong).1.stdout
        = some longOut
    ∧ 20000 < longOut.length := by
  constructor
  · rfl
  · have h0 : longOut.length = 20001 := by
      unfold longOut
      rw [String.length_mk, List.length_replicate]
    rw [h0]
    norm_num

/-- C3 (amended): on the normal-completion path both output fields of the
result are at most 20000 characters, and output longer than 20000
characters is truncated to exactly 20000, never returned longer; the
timed-out result is exempt and returns the partial output unbounded. -/
theorem run_code_completed_output_truncated (language : Option String)
    (code : String) (t : Nat) (env : Env) (rc : Int) (out err : String)
    (hexec : env.exec = ExecOutcome.completed rc out err) :
    (∀ s, (run_code language code t env).1.stdout = some s →
        s.length ≤ 20000 ∧ (20000 < out.length → s.length = 20000))
    ∧ (∀ s, (run_code language code t env).1.stderr = some s →
        s.length ≤ 20000 ∧ (20000 < err.length → s.length = 20000)) := by
  rw [run_code_fst]
  rcases run_body_result_cases (normalizeLang language) env.tmpName code t env with
    ⟨m, hm⟩ | hs
  · rw [hm]
    constructor <;> intro s hs' <;> simp [errorResult] at hs'
  · rw [hs, hexec]
    constructor <;> intro s hs' <;> simp [subprocessResult] at hs' <;> rw [← hs'] <;>
      exact ⟨truncate20000_length _, fun hlong => by
        rw [truncate20000_length_eq]
        exact Nat.min_eq_left (by omega)⟩

/-- C3 witness: the amended theorem applied to a completed python run whose
20001-character output is truncated to exactly 20000 characters. -/
theorem run_code_completed_output_truncated_witness :
    20000 < longOut.length ∧ (truncate20000 longOut).length = 20000 := by
  have hlong : 20000 < longOut.length := by
    unfold longOut
    rw [String.length_mk, List.length_replicate]
    norm_num
  exact ⟨hlong, ((run_code_completed_output_truncated (some "python") "x" 10
    envCompletedLong 0 longOut "" rfl).1 (truncate20000 longOut) rfl).2 hlong⟩

/-- C5: if a child process was spawned and it did not exit within the
wall-clock timeout, the result has `timed_out = true` and a null
`exit_code`, partial stdout is returned (empty string when none was
captured), and any non-empty partial stderr is returned as captured. -/
theorem run_code_timeout_result (language : Option String) (code : String)
    (t : Nat) (env : Env) (pout perr : Option String)
    (hspawn : ∃ c cw ts l, Event.spawn c cw ts l ∈ (run_code language code t env).2)
    (hexec : env.exec = ExecOutcome.timedOut pout perr) :
    (run_code language code t env).1.timed_out = some true
    ∧ (run_code language code t env).1.exit_code = some none
    ∧ (run_code language code t env).1.stdout = some (pout.getD "")
    ∧ (∀ s, perr = some s → s ≠ "" →
        (run_code language code t env).1.stderr = some s) := by
  obtain ⟨c, cw, ts, l, hmem⟩ := hspawn
  have hchar := run_body_spawn_mem _ _ _ _ _ _ _ _ _
    (run_code_spawn_mem _ _ _ _ _ _ _ _ hmem)
  rw [run_code_fst, hchar.1, hexec]
  refine ⟨rfl, rfl, rfl, ?_⟩
  intro s hs hne
  rw [hs]
  simp [subprocessResult, hne]

/-- C5 witness: a python child that timed out with partial output on both
streams. -/
theorem run_code_timeout_result_witness :
    (run_code (some "python") "while True: pass" 10 envTimeout).1.timed_out
        = some true
    ∧ (run_code (some "python") "while True: pass" 10 envTimeout).1.exit_code
        = some none
    ∧ (run_code (some "python") "while True: pass" 10 envTimeout).1.stdout
        = some "partial out"
    ∧ (run_code (some "python") "while True: pass" 10 envTimeout).1.stderr
        = some "partial err" := by
  have h := run_code_timeout_result (some "python") "while True: pass" 10
    envTimeout (some "partial out") (some "partial err")
    ⟨["/usr/bin/python3", "-u", "main.py"], "ai_run_t", 10, none, by decide⟩ rfl
  exact ⟨h.1, h.2.1, h.2.2.1, h.2.2.2 "partial err" rfl (by decide)⟩

/-- C6: a child that runs to completion yields `success = (exit_code == 0)`
with the captured (truncated) output, an integer `exit_code` and no
`error` key; and every result whose `error` key is populated carries no
`exit_code` key at all. -/
theorem run_code_success_classification (language : Option String)
    (code : String) (t : Nat) (env : Env) :
    (∀ (rc : Int) (out err : String),
       env.exec = ExecOutcome.completed rc out err →
       (∃ c cw ts l, Event.spawn c cw ts l ∈ (run_code language code t env).2) →
       (run_code language code t env).1.success = (rc == 0)
       ∧ (run_code language code t env).1.exit_code = some (some rc)
       ∧ (run_code language code t env).1.stdout = some (truncate20000 out)
       ∧ (run_code language code t env).1.stderr = some (truncate20000 err)
       ∧ (run_code language code t env).1.error = none)
    ∧ (∀ m, (run_code language code t env).1.error = some m →
       (run_code language code t env).1.exit_code = none) := by
  constructor
  · intro rc out err hexec hspawn
    obtain ⟨c, cw, ts, l, hmem⟩ := hspawn
    have hchar := run_body_spawn_mem _ _ _ _ _ _ _ _ _
      (run_code_spawn_mem _ _ _ _ _ _ _ _ hmem)
    rw [run_code_fst, hchar.1, hexec]
    exact ⟨rfl, rfl, rfl, rfl, rfl⟩
  · intro m hm
    rw [run_code_fst] at hm ⊢
    rcases run_body_result_cases (normalizeLang language) env.tmpName code t env with
      ⟨m', hm'⟩ | hs
    · rw [hm']
      rfl
    · rw [hs] at hm ⊢
      cases henv : env.exec with
      | completed rc out err => rw [henv] at hm; simp [subprocessResult] at hm
      | timedOut pout perr => rw [henv] at hm; simp [subprocessResult] at hm
      | raised msg => rfl

/-- C6 witness: a python child exiting 0 with output "2". -/
theorem run_code_success_classification_witness :
    (run_code (some "python") "print(1+1)" 10 envPy).1.success = ((0 : Int) == 0)
    ∧ (run_code (some "python") "print(1+1)" 10 envPy).1.exit_code
        = some (some 0)
    ∧ (run_code (some "python") "print(1+1)" 10 envPy).1.stdout
        = some (truncate20000 "2\n")
    ∧ (run_code (some "python") "print(1+1)" 10 envPy).1.stderr
        = some (truncate20000 "")
    ∧ (run_code (some "python") "print(1+1)" 10 envPy).1.error = none :=
  (run_code_success_classification (some "python") "print(1+1)" 10 envPy).1
    0 "2\n" "" rfl
    ⟨["/usr/bin/python3", "-u", "main.py"], "ai_run_w", 10, _set_limits true,
      by decide⟩

/-- C7: every spawned child is started with the wall-clock timeout the
caller configured, and with resource limits exactly CPU soft 6s / hard 8s,
address space 256 MiB, output file size 10 MiB when the host is POSIX,
and with no limits at all otherwise; the timeout outcome is honoured
regardless of platform. -/
theorem run_code_resource_limits (language : Option String) (code : String)
    (t : Nat) (env : Env) (c : List String) (cw : String) (ts : Nat)
    (l : Option RLimits)
    (h : Event.spawn c cw ts l ∈ (run_code language code t env).2) :
    (env.posix = true →
       l = some { cpu_soft := 6, cpu_hard := 8,
                  address_space := 256 * 1024 * 1024,
                  fsize := 10 * 1024 * 1024 })
    ∧ (env.posix = false → l = none)
    ∧ ts = t
    ∧ (∀ pout perr, env.exec = ExecOutcome.timedOut pout perr →
         (run_code language code t env).1.timed_out = some true) := by
  have hchar := run_body_spawn_mem _ _ _ _ _ _ _ _ _
    (run_code_spawn_mem _ _ _ _ _ _ _ _ h)
  obtain ⟨hres, hcw, hts, hl⟩ := hchar
  refine ⟨?_, ?_, hts, ?_⟩
  · intro hp
    rw [hl, hp]
    simp [_set_limits]
  · intro hp
    rw [hl, hp]
    simp
  · intro pout perr hexec
    rw [run_code_fst, hres, hexec]
    rfl

/-- C7 witness: the POSIX limit record the theorem forces for a spawned
python child on a POSIX host. -/
theorem run_code_resource_limits_witness :
    _set_limits true
      = some { cpu_soft := 6, cpu_hard := 8,
               address_space := 256 * 1024 * 1024,
               fsize := 10 * 1024 * 1024 } :=
  (run_code_resource_limits (some "python") "print(1)" 10 envPy
    ["/usr/bin/python3", "-u", "main.py"] "ai_run_w" 10 (_set_limits true)
    (by decide)).1 rfl

/-- C8: for each supported language family whose interpreter cannot be
resolved on the search path (python: neither python3 nor python;
javascript: node; shell: neither bash nor sh), `run_code` returns the
family-specific interpreter-not-found error — a different message from the
unsupported-language error — and spawns no process. -/
theorem run_code_interpreter_not_found (language : Option String)
    (code : String) (t : Nat) (env : Env) :
    ((normalizeLang language = "py" ∨ normalizeLang language = "python") →
       env.which "python3" = none → env.which "python" = none →
       (run_code language code t env).1.error
           = some "python interpreter not found on server."
       ∧ noSpawn (run_code language code t env).2)
    ∧ ((normalizeLang language = "js" ∨ normalizeLang language = "node"
          ∨ normalizeLang language = "javascript") →
       env.which "node" = none →
       (run_code language code t env).1.error = some "node not found on server."
       ∧ noSpawn (run_code language code t env).2)
    ∧ ((normalizeLang language = "sh" ∨ normalizeLang language = "bash") →
       env.which "bash" = none → env.which "sh" = none →
       (run_code language code t env).1.error
           = some "sh/bash not found on server."
       ∧ noSpawn (run_code language code t env).2) := by
  refine ⟨?_, ?_, ?_⟩
  · intro hlang hw1 hw2
    have hw : whichOr env.which "python3" "python" = none := by
      unfold whichOr
      rw [hw1]
      exact hw2
    have hb := run_body_py_nointerp (normalizeLang language) env.tmpName code t env
      hlang hw
    constructor
    · rw [run_code_fst, hb]
      rfl
    · intro c cw ts l hmem
      unfold run_code at hmem
      rw [hb] at hmem
      simp at hmem
  · intro hlang hw1
    have hb := run_body_js_nointerp (normalizeLang language) env.tmpName code t env
      (by rcases hlang with h | h | h <;> rw [h] <;> decide) hlang hw1
    constructor
    · rw [run_code_fst, hb]
      rfl
    · intro c cw ts l hmem
      unfold run_code at hmem
      rw [hb] at hmem
      simp at hmem
  · intro hlang hw1 hw2
    have hw : whichOr env.which "bash" "sh" = none := by
      unfold whichOr
      rw [hw1]
      exact hw2
    have hb := run_body_sh_nointerp (normalizeLang language) env.tmpName code t env
      (by rcases hlang with h | h <;> rw [h] <;> decide)
      (by rcases hlang with h | h <;> rw [h] <;> decide) hlang hw
    constructor
    · rw [run_code_fst, hb]
      rfl
    · intro c cw ts l hmem
      unfold run_code at hmem
      rw [hb] at hmem
      simp at hmem

/-- C8 witness: the python branch on a host with an empty search path. -/
theorem run_code_interpreter_not_found_witness :
    (run_code (some "python") "print(1)" 10 envNoInterp).1.error
        = some "python interpreter not found on server."
    ∧ noSpawn (run_code (some "python") "print(1)" 10 envNoInterp).2 :=
  (run_code_interpreter_not_found (some "python") "print(1)" 10 envNoInterp).1
    (Or.inr rfl) rfl rfl

/-- C9: the code contradicts the claim (and `run_code`'s own docstring,
which promises the keys success, stdout, stderr, exit_code and timed_out):
on the error paths the returned dictionary carries only `success` and
`error`; stdout, stderr, exit_code and timed_out are all absent. -/
theorem run_code_error_result_missing_fields :
    (run_code (some "ruby") "x" 10 envNoInterp).1.error
        = some "Unsupported language: ruby"
    ∧ (run_code (some "ruby") "x" 10 envNoInterp).1.success = false
    ∧ (run_code (some "ruby") "x" 10 envNoInterp).1.stdout = none
    ∧ (run_code (some "ruby") "x" 10 envNoInterp).1.stderr = none
    ∧ (run_code (some "ruby") "x" 10 envNoInterp).1.exit_code = none
    ∧ (run_code (some "ruby") "x" 10 envNoInterp).1.timed_out = none := by
  decide

/-- C10: when a spawned child times out and no partial stderr was captured
(`TimeoutExpired.stderr` is `None` or empty), the result's stderr is the
literal sentinel "TIMEOUT", while stdout falls back to the empty string
when no partial stdout was captured. -/
theorem run_code_timeout_stderr_sentinel (language : Option String)
    (code : String) (t : Nat) (env : Env) (pout perr : Option String)
    (hspawn : ∃ c cw ts l, Event.spawn c cw ts l ∈ (run_code language code t env).2)
    (hexec : env.exec = ExecOutcome.timedOut pout perr)
    (herr : perr = none ∨ perr = some "") :
    (run_code language code t env).1.stderr = some "TIMEOUT"
    ∧ ((pout = none ∨ pout = some "") →
        (run_code language code t env).1.stdout = some "") := by
  obtain ⟨c, cw, ts, l, hmem⟩ := hspawn
  have hchar := run_body_spawn_mem _ _ _ _ _ _ _ _ _
    (run_code_spawn_mem _ _ _ _ _ _ _ _ hmem)
  rw [run_code_fst, hchar.1, hexec]
  constructor
  · rcases herr with h | h <;> rw [h] <;> rfl
  · intro hout
    rcases hout with h | h <;> rw [h] <;> rfl

/-- C10 witness: a python child that timed out with nothing captured on
either stream. -/
theorem run_code_timeout_stderr_sentinel_witness :
    (run_code (some "python") "while True: pass" 10 envTimeoutEmpty).1.stderr
        = some "TIMEOUT"
    ∧ (run_code (some "python") "while True: pass" 10 envTimeoutEmpty).1.stdout
        = some "" := by
  have h := run_code_timeout_stderr_sentinel (some "python") "while True: pass"
    10 envTimeoutEmpty none none
    ⟨["/usr/bin/python3", "-u", "main.py"], "ai_run_e", 10, _set_limits true,
      by decide⟩
    rfl (Or.inl rfl)
  exact ⟨h.1, h.2 (Or.inl rfl)⟩

end AiChat
